import Mathlib

/-!
Verification of the frame decoding pipeline of `src/frame/parser.rs`
(the wire-frame codec of a CQL-style binary protocol client).

Shallow embedding conventions:
* bytes are `Nat` values below 256; byte buffers are `List Nat`;
* the connection's byte source is a `List Nat` consumed from the front;
* Rust `error::Result` values that are returned become `Outcome.ok` or
  `Outcome.err`; a Rust panic (an `unwrap()` that fails, or
  `unreachable!`) becomes `Outcome.panicked`, which is distinct from a
  returned error;
* collaborators that live outside `src` (the compression strategy, the
  time-UUID decoder, the response-body decoder) are passed in as
  function parameters, so theorems quantify over every implementation
  satisfying the stated contract.
-/

namespace Cdrs

/-- Error values returned (not panicked) by the decoder, mirroring the
variants of `error::Error` that this file can produce: an I/O error from
`read_exact`, a decompression failure, a UTF-8 encoding failure, and a
structured server error (its payload abstracted to a `Nat`). -/
inductive CErr : Type where
  | io : CErr
  | compression : CErr
  | encoding : CErr
  | server : Nat → CErr
deriving DecidableEq, Repr

/-- Result of running a piece of the decoder: a value, a returned error,
or a Rust panic (which unwinds and never returns a value). -/
inductive Outcome (α : Type) : Type where
  | ok : α → Outcome α
  | err : CErr → Outcome α
  | panicked : Outcome α
deriving DecidableEq, Repr

/-- Sequencing of decoder steps: errors and panics short-circuit. -/
def Outcome.bind {α β : Type} : Outcome α → (α → Outcome β) → Outcome β
  | .ok a, f => f a
  | .err e, _ => .err e
  | .panicked, _ => .panicked

/-- The four frame flags recognized by `Flag::get_collection`
(`frame/mod.rs`, outside `src`). -/
inductive Flag : Type where
  | compression : Flag
  | tracing : Flag
  | customPayload : Flag
  | warning : Flag
deriving DecidableEq, BEq, Repr

/-- Modelled from the spec: `Flag::get_collection` decodes the flags
bitmask byte into the list of set flags (`frame/mod.rs` is not under
`src`); the bit positions are the protocol constants 0x01 Compression,
0x02 Tracing, 0x04 CustomPayload, 0x08 Warning. -/
def Flag.get_collection (b : Nat) : List Flag :=
  (if b.testBit 0 then [Flag.compression] else []) ++
  (if b.testBit 1 then [Flag.tracing] else []) ++
  (if b.testBit 2 then [Flag.customPayload] else []) ++
  (if b.testBit 3 then [Flag.warning] else [])

/-- Modelled from the spec: the opcode enumerates message kinds and the
core only inspects whether it is the Error kind (`Opcode::from` lives in
`frame/mod.rs`, not under `src`); byte 0x00 is the protocol's Error
opcode, every other byte is carried through as a non-error kind. -/
inductive Opcode : Type where
  | error : Opcode
  | nonError : Nat → Opcode
deriving DecidableEq, Repr

/-- Modelled from the spec: `Opcode::from` on the single opcode byte. -/
def Opcode.fromByte (b : Nat) : Opcode :=
  if b = 0 then Opcode.error else Opcode.nonError b

/-- Modelled from the spec: `from_bytes` (`crate::types`, not under
`src`) converts a byte slice to an unsigned integer, big-endian; the
call site in `parse_frame` applies `as usize` with no sign check. -/
def from_bytes (l : List Nat) : Nat :=
  l.foldl (fun acc b => acc * 256 + b) 0

/-- Modelled from the spec: `from_u16_bytes` (`crate::types`, not under
`src`) converts two bytes to an unsigned 16-bit integer, big-endian. -/
def from_u16_bytes (l : List Nat) : Nat :=
  l.foldl (fun acc b => acc * 256 + b) 0

/-- The signed 32-bit big-endian reinterpretation used by
`i32::from_be_bytes` in `read_int`. -/
def toI32 (l : List Nat) : Int :=
  if from_bytes l < 2 ^ 31 then (from_bytes l : Int)
  else (from_bytes l : Int) - 2 ^ 32

/-- The decoded `Frame` value, with exactly the fields of the struct
literal built at the end of `parse_frame`: version, flags, opcode,
stream, body, tracing_id, warnings. There is no custom-payload field in
that literal, hence none here. -/
structure Frame : Type where
  version : Nat
  flags : List Flag
  opcode : Opcode
  stream : Nat
  body : List Nat
  tracing_id : Option (List Nat)
  warnings : List (List Nat)
deriving DecidableEq, Repr

/-- Modelled from the spec: the response-body decoder's output
(`ResponseBody`, outside `src`); the core only distinguishes the Error
variant (its structured payload abstracted to a `Nat`) from the rest. -/
inductive ResponseBody : Type where
  | error : Nat → ResponseBody
  | nonError : ResponseBody
deriving DecidableEq, Repr

/-! ## Primitive wire readers (`parser.rs` lines 120-190)

Each reader takes the remaining bytes of the in-memory body cursor and
yields the decoded value together with the bytes left after it.  All of
them call `cursor.read_exact(..).unwrap()`, so a short read panics
rather than returning an error. -/

/-- `read_int`: 4 bytes as a signed big-endian 32-bit integer; the
`read_exact` result is `unwrap`ped, so a short cursor panics. -/
def read_int (b : List Nat) : Outcome (Int × List Nat) :=
  if 4 ≤ b.length then Outcome.ok (toI32 (b.take 4), b.drop 4)
  else Outcome.panicked

/-- `read_int_length`: `read_int`, then `try_into::<usize>().unwrap()`,
which panics when the value is negative. -/
def read_int_length (b : List Nat) : Outcome (Nat × List Nat) :=
  (read_int b).bind fun v =>
    if v.1 < 0 then Outcome.panicked else Outcome.ok (v.1.toNat, v.2)

/-- `read_raw_bytes(count)`: exactly `count` bytes verbatim; the
`read_exact` result is `unwrap`ped, so a short cursor panics. -/
def read_raw_bytes (count : Nat) (b : List Nat) : Outcome (List Nat × List Nat) :=
  if count ≤ b.length then Outcome.ok (b.take count, b.drop count)
  else Outcome.panicked

/-- `read_bytes`: an int length then that many raw bytes. -/
def read_bytes (b : List Nat) : Outcome (List Nat × List Nat) :=
  (read_int_length b).bind fun l => read_raw_bytes l.1 l.2

/-- `read_short`: 2 bytes as an unsigned big-endian 16-bit integer; the
`read_exact` result is `unwrap`ped, so a short cursor panics. -/
def read_short (b : List Nat) : Outcome (Nat × List Nat) :=
  if 2 ≤ b.length then Outcome.ok (from_u16_bytes (b.take 2), b.drop 2)
  else Outcome.panicked

/-- `read_short_length`: `read_short` then `try_into::<usize>()`, which
can never fail for a u16. -/
def read_short_length (b : List Nat) : Outcome (Nat × List Nat) :=
  read_short b

/-- Whether a continuation byte is in the range 0x80-0xBF. -/
def isCont (b : Nat) : Bool := 0x80 ≤ b && b ≤ 0xBF

/-- Constraint on the first continuation byte of a 3-byte sequence. -/
def utf8c3 (b c1 : Nat) : Bool :=
  if b = 0xE0 then 0xA0 ≤ c1 && c1 ≤ 0xBF
  else if b = 0xED then 0x80 ≤ c1 && c1 ≤ 0x9F
  else isCont c1

/-- Constraint on the first continuation byte of a 4-byte sequence. -/
def utf8c4 (b c1 : Nat) : Bool :=
  if b = 0xF0 then 0x90 ≤ c1 && c1 ≤ 0xBF
  else if b = 0xF4 then 0x80 ≤ c1 && c1 ≤ 0x8F
  else isCont c1

/-- UTF-8 validity exactly as `std::str::from_utf8` checks it
(RFC 3629: no overlong forms, no surrogates, max U+10FFFF). -/
def validUtf8 : List Nat → Bool
  | [] => true
  | b :: rest =>
    if b ≤ 0x7F then validUtf8 rest
    else if 0xC2 ≤ b && b ≤ 0xDF then
      match rest with
      | c1 :: r => isCont c1 && validUtf8 r
      | [] => false
    else if 0xE0 ≤ b && b ≤ 0xEF then
      match rest with
      | c1 :: c2 :: r => utf8c3 b c1 && isCont c2 && validUtf8 r
      | _ => false
    else if 0xF0 ≤ b && b ≤ 0xF4 then
      match rest with
      | c1 :: c2 :: c3 :: r => utf8c4 b c1 && isCont c2 && isCont c3 && validUtf8 r
      | _ => false
    else false

/-- `read_string`: a short length, that many raw bytes, then
`std::str::from_utf8(..).unwrap()`, which panics on invalid UTF-8.  The
decoded string is represented by its UTF-8 bytes (Rust `String`
equality coincides with byte equality). -/
def read_string (b : List Nat) : Outcome (List Nat × List Nat) :=
  (read_short_length b).bind fun l =>
    (read_raw_bytes l.1 l.2).bind fun raw =>
      if validUtf8 raw.1 then Outcome.ok (raw.1, raw.2) else Outcome.panicked

/-- `HashMap::insert` on the association-list model of the string-to-
bytes map: a repeated key overwrites the earlier entry. -/
def hashmap_insert (m : List (List Nat × List Nat)) (k v : List Nat) :
    List (List Nat × List Nat) :=
  (m.filter fun p => !(p.1 == k)) ++ [(k, v)]

/-- The `for _ in 0..len` loop of `read_bytes_map`: each iteration reads
a string key and a bytes value and inserts them. -/
def read_bytes_map_loop :
    Nat → List (List Nat × List Nat) → List Nat →
    Outcome (List (List Nat × List Nat) × List Nat)
  | 0, m, b => Outcome.ok (m, b)
  | n + 1, m, b =>
    (read_string b).bind fun k =>
      (read_bytes k.2).bind fun v =>
        read_bytes_map_loop n (hashmap_insert m k.1 v.1) v.2

/-- `read_bytes_map`: a short entry count, then that many string/bytes
pairs. -/
def read_bytes_map (b : List Nat) :
    Outcome (List (List Nat × List Nat) × List Nat) :=
  (read_short_length b).bind fun l => read_bytes_map_loop l.1 [] l.2

/-! ## Modelled collaborator readers for the warnings list

`CStringList::from_cursor` lives in `crate::types` (not under `src`). -/

/-- Modelled from the spec: a short read used by `CStringList`, which
returns an I/O error (rather than panicking) when fewer than two bytes
remain. -/
def read_short_e (b : List Nat) : Outcome (Nat × List Nat) :=
  if 2 ≤ b.length then Outcome.ok (from_u16_bytes (b.take 2), b.drop 2)
  else Outcome.err CErr.io

/-- Modelled from the spec: a length-prefixed string read used by
`CStringList`, returning an I/O error on a short buffer and an encoding
error on invalid UTF-8. -/
def read_string_e (b : List Nat) : Outcome (List Nat × List Nat) :=
  (read_short_e b).bind fun l =>
    if l.1 ≤ l.2.length then
      (if validUtf8 (l.2.take l.1) then Outcome.ok (l.2.take l.1, l.2.drop l.1)
       else Outcome.err CErr.encoding)
    else Outcome.err CErr.io

/-- Modelled from the spec: the loop reading the declared number of
warning strings. -/
def cstring_list_loop :
    Nat → List (List Nat) → List Nat → Outcome (List (List Nat) × List Nat)
  | 0, acc, b => Outcome.ok (acc.reverse, b)
  | n + 1, acc, b =>
    (read_string_e b).bind fun s => cstring_list_loop n (s.1 :: acc) s.2

/-- Modelled from the spec: `CStringList::from_cursor` followed by
`into_plain` — a short count then that many length-prefixed strings,
with every underlying failure returned as an error. -/
def cstring_list_from_cursor (b : List Nat) :
    Outcome (List (List Nat) × List Nat) :=
  (read_short_e b).bind fun l => cstring_list_loop l.1 [] l.2

/-! ## Compression dispatch and extended-body parsing -/

/-- Modelled from the spec: `Compression::None.decode` is the no-op
identity strategy, always available and never failing. -/
def compression_none_decode (b : List Nat) : Except Unit (List Nat) :=
  Except.ok b

/-- The compression dispatch of `parse_frame` (lines 59-63): the raw
body goes through the configured strategy exactly when the Compression
flag is in the decoded flag list, and through `Compression::None`
otherwise. -/
def decode_body (flags : List Flag) (comp : List Nat → Except Unit (List Nat))
    (raw : List Nat) : Except Unit (List Nat) :=
  if flags.any (fun f => f == Flag.compression) then comp raw
  else compression_none_decode raw

/-- The warnings and custom-payload steps of `parse_frame` (lines
80-95), after the tracing section: a warnings list if the Warning flag
is set, then a bytes map (whose value is dropped on the floor, exactly
as the source drops its `custom_payload` local, and whose `Result` is
`unwrap`ped, so a returned error would panic too) if the CustomPayload
flag is set; the bytes left over are the application body that
`read_to_end` collects. -/
def parse_after_tracing (flags : List Flag) (b : List Nat) :
    Outcome (List (List Nat) × List Nat) :=
  (if flags.any (fun f => f == Flag.warning) then cstring_list_from_cursor b
   else Outcome.ok ([], b)).bind fun w =>
  (if flags.any (fun f => f == Flag.customPayload) then
     match read_bytes_map w.2 with
     | Outcome.ok p => Outcome.ok p.2
     | Outcome.err _ => Outcome.panicked
     | Outcome.panicked => Outcome.panicked
   else Outcome.ok w.2).bind fun rest =>
  Outcome.ok (w.1, rest)

/-- The extended-body parse of `parse_frame` (lines 66-95): over the
decompressed body, the tracing section first (16 bytes consumed via
`read_exact` with the `?` operator, the UUID decode failure swallowed by
`.ok()`), then the warnings and custom-payload sections, returning the
tracing id, the warnings and the remaining application body. -/
def parse_sections (flags : List Flag) (dtu : List Nat → Option (List Nat))
    (full_body : List Nat) :
    Outcome (Option (List Nat) × List (List Nat) × List Nat) :=
  (if flags.any (fun f => f == Flag.tracing) then
     (if 16 ≤ full_body.length then
        Outcome.ok (dtu (full_body.take 16), full_body.drop 16)
      else Outcome.err CErr.io)
   else Outcome.ok (none, full_body)).bind fun t =>
  (parse_after_tracing flags t.2).bind fun w =>
  Outcome.ok (t.1, w.1, w.2)

/-- `convert_frame_into_result` (lines 110-118): an Error-opcode frame
has its body decoded (`get_body`, passed in as `gb`); a structured
server error becomes a returned server-error failure, any other decoded
body hits `unreachable!` (a panic), and a body-decode failure propagates
via `and_then`; every other opcode returns the frame unchanged. -/
def convert_frame_into_result (gb : Frame → Outcome ResponseBody)
    (f : Frame) : Outcome Frame :=
  match f.opcode with
  | Opcode.error =>
    (gb f).bind fun rb =>
      match rb with
      | ResponseBody.error e => Outcome.err (CErr.server e)
      | _ => Outcome.panicked
  | _ => Outcome.ok f

/-- Everything `parse_frame` does after the six reads from the
connection: compression dispatch, extended-body parsing, the `Frame`
struct literal (note: no custom-payload field) and the final result
conversion. -/
def parse_after_header (version : Nat) (flags : List Flag) (stream : Nat)
    (opcode : Opcode) (body_bytes : List Nat)
    (comp : List Nat → Except Unit (List Nat))
    (dtu : List Nat → Option (List Nat))
    (gb : Frame → Outcome ResponseBody) : Outcome Frame :=
  match decode_body flags comp body_bytes with
  | Except.error _ => Outcome.err CErr.compression
  | Except.ok full_body =>
    (parse_sections flags dtu full_body).bind fun s =>
      convert_frame_into_result gb
        (Frame.mk version flags opcode stream s.2.2 s.1 s.2.1)

/-! ## The connection byte source -/

/-- A computation reading from the connection's byte source: it returns
an outcome together with the bytes still unread on the connection. -/
def ConnM (α : Type) : Type := List Nat → Outcome α × List Nat

/-- Sequencing of connection reads; errors and panics short-circuit and
leave the source in whatever state the failing step left it. -/
def connBind {α β : Type} (m : ConnM α) (f : α → ConnM β) : ConnM β :=
  fun s =>
    match m s with
    | (Outcome.ok a, s1) => f a s1
    | (Outcome.err e, s1) => (Outcome.err e, s1)
    | (Outcome.panicked, s1) => (Outcome.panicked, s1)

/-- `cursor.read_exact(n)` on the connection: `n` bytes are consumed on
success; on a shortfall the call fails with an I/O error after having
consumed at most the bytes that were available (`Read::read_exact`
leaves the amount read unspecified but bounded by the request; the model
takes the everything-read worst case). -/
def connRead (n : Nat) : ConnM (List Nat) :=
  fun s =>
    if n ≤ s.length then (Outcome.ok (s.take n), s.drop n)
    else (Outcome.err CErr.io, [])

/-- A pure step that does not touch the connection. -/
def connLift {α : Type} (o : Outcome α) : ConnM α := fun s => (o, s)

/-- `parse_frame` (lines 28-108): the five header reads in source order
(1-byte version, 1-byte flags, 2-byte stream, 1-byte opcode, 4-byte
length), the body read of the declared length, then the pure body
pipeline; the result is paired with the bytes left on the connection. -/
def parse_frame (comp : List Nat → Except Unit (List Nat))
    (dtu : List Nat → Option (List Nat))
    (gb : Frame → Outcome ResponseBody) : ConnM Frame :=
  connBind (connRead 1) fun version_bytes =>
  connBind (connRead 1) fun flag_bytes =>
  connBind (connRead 2) fun stream_bytes =>
  connBind (connRead 1) fun opcode_bytes =>
  connBind (connRead 4) fun length_bytes =>
  connBind (connRead (from_bytes length_bytes)) fun body_bytes =>
  connLift (parse_after_header (version_bytes.headD 0)
    (Flag.get_collection (flag_bytes.headD 0))
    (from_u16_bytes stream_bytes)
    (Opcode.fromByte (opcode_bytes.headD 0))
    body_bytes comp dtu gb)

/-! ## Concrete collaborator instances used by evaluation witnesses -/

/-- A configured compression strategy behaving as the identity. -/
def comp0 : List Nat → Except Unit (List Nat) := fun b => Except.ok b

/-- A configured non-identity compression strategy that rejects every
input. -/
def compFail : List Nat → Except Unit (List Nat) := fun _ => Except.error ()

/-- A time-UUID decoder that rejects every 16-byte value. -/
def dtu0 : List Nat → Option (List Nat) := fun _ => none

/-- A time-UUID decoder that accepts every 16-byte value verbatim. -/
def dtuId : List Nat → Option (List Nat) := fun b => some b

/-- A response-body decoder that never yields a structured error. -/
def gb0 : Frame → Outcome ResponseBody := fun _ => Outcome.ok ResponseBody.nonError

/-- A response-body decoder that yields the structured server error 7
for every frame, as the collaborator contract requires on the Error
opcode. -/
def gbErr7 : Frame → Outcome ResponseBody :=
  fun _ => Outcome.ok (ResponseBody.error 7)

/-! ## Claim theorems -/

/-- Claim C1 (code bug): the decoder parses the custom-payload map but
the `Frame` struct literal at the end of `parse_frame` has no
custom-payload field, so the returned frame never carries it.  Two
frames with the CustomPayload flag set — one whose body holds a
one-entry map (key 0x61, value 0x01) and one whose body holds an empty
map (count 0) — decode to byte-for-byte identical `Frame` values, so
the present and empty states the claim requires to be distinguishable
are not distinguishable, and the map content is dropped. -/
theorem c1_custom_payload_dropped :
    parse_frame comp0 dtu0 gb0
        [4, 4, 0, 1, 8, 0, 0, 0, 10, 0, 1, 0, 1, 97, 0, 0, 0, 1, 1] =
      (Outcome.ok
        (Frame.mk 4 [Flag.customPayload] (Opcode.nonError 8) 1 [] none []),
       []) ∧
    parse_frame comp0 dtu0 gb0 [4, 4, 0, 1, 8, 0, 0, 0, 2, 0, 0] =
      (Outcome.ok
        (Frame.mk 4 [Flag.customPayload] (Opcode.nonError 8) 1 [] none []),
       []) := by
  exact ⟨rfl, rfl⟩

/-- Claim C2 (code bug): on the four bytes 0xFF 0xFF 0xFF 0xFF (the
signed value -1), `read_int_length` panics via
`try_into::<usize>().unwrap()` instead of returning a malformed-length
error; and the header body-length read converts the same four bytes
through `from_bytes(..) as usize` with no sign check, treating them as
the huge length 4294967295 and failing with an I/O error while trying
to read that many body bytes — no malformed-length error is ever
returned on either path. -/
theorem c2_negative_length_panics :
    read_int_length [255, 255, 255, 255] = Outcome.panicked ∧
    parse_frame comp0 dtu0 gb0 [4, 0, 0, 1, 8, 255, 255, 255, 255] =
      (Outcome.err CErr.io, []) := by
  exact ⟨rfl, rfl⟩

/-- Claim C3: when the Tracing flag is set, the body holds at least 16
bytes and the time-UUID decoder rejects those 16 bytes, the extended-
body parse is exactly the parse of the remaining sections starting 16
bytes further in, with the tracing id recorded as absent — the UUID
failure neither fails the decode nor disturbs the cursor position of
the sections that follow. -/
theorem c3_tracing_failure_nonfatal (flags : List Flag)
    (dtu : List Nat → Option (List Nat)) (full_body : List Nat)
    (h1 : flags.any (fun f => f == Flag.tracing) = true)
    (h2 : 16 ≤ full_body.length)
    (h3 : dtu (full_body.take 16) = none) :
    parse_sections flags dtu full_body =
      (parse_after_tracing flags (full_body.drop 16)).bind fun w =>
        Outcome.ok (none, w.1, w.2) := by
  simp only [parse_sections, if_pos h1, if_pos h2, h3, Outcome.bind]

/-- Witness for C3 on a concrete input: Tracing flag set, a 16-byte
all-zero body, and a decoder rejecting every UUID. -/
theorem c3_tracing_failure_nonfatal_witness :
    parse_sections [Flag.tracing] dtu0 (List.replicate 16 0) =
      (parse_after_tracing [Flag.tracing]
          ((List.replicate 16 0).drop 16)).bind fun w =>
        Outcome.ok (none, w.1, w.2) :=
  c3_tracing_failure_nonfatal [Flag.tracing] dtu0 (List.replicate 16 0)
    (by decide) (by decide) rfl

/-- Claim C4: the raw body goes through the configured compression
strategy exactly when the Compression flag is set in the frame's flag
list; when it is unset the body goes through the identity None strategy
— so it comes back unchanged — no matter which strategy `comp` was
configured for the connection. -/
theorem c4_compression_flag_governs (flags : List Flag)
    (comp : List Nat → Except Unit (List Nat)) (raw : List Nat) :
    (flags.any (fun f => f == Flag.compression) = false →
      decode_body flags comp raw = compression_none_decode raw ∧
      decode_body flags comp raw = Except.ok raw) ∧
    (flags.any (fun f => f == Flag.compression) = true →
      decode_body flags comp raw = comp raw) := by
  constructor
  · intro h
    exact ⟨by simp [decode_body, h], by simp [decode_body, h, compression_none_decode]⟩
  · intro h
    simp [decode_body, h]

/-- Witness for C4: a configured strategy that rejects every input is
bypassed when the flag is unset, and consulted when it is set. -/
theorem c4_compression_flag_governs_witness :
    decode_body [] compFail [1, 2] = Except.ok [1, 2] ∧
    decode_body [Flag.compression] compFail [1, 2] = Except.error () := by
  refine ⟨((c4_compression_flag_governs [] compFail [1, 2]).1 rfl).2, ?_⟩
  rw [(c4_compression_flag_governs [Flag.compression] compFail [1, 2]).2 rfl]
  rfl

/-- Claim C7: `convert_frame_into_result` returns a frame with any
non-Error opcode unchanged as a success; a frame with the Error opcode
never yields a successful frame, and whenever the body decoder honours
its contract (yielding the structured server error `e`), the result is
exactly the returned server-error failure carrying `e`. -/
theorem c7_error_opcode_failure (gb : Frame → Outcome ResponseBody)
    (f : Frame) :
    (f.opcode ≠ Opcode.error → convert_frame_into_result gb f = Outcome.ok f) ∧
    (f.opcode = Opcode.error →
      (∀ f2, convert_frame_into_result gb f ≠ Outcome.ok f2) ∧
      (∀ e, gb f = Outcome.ok (ResponseBody.error e) →
        convert_frame_into_result gb f = Outcome.err (CErr.server e))) := by
  constructor
  · intro h
    rcases hop : f.opcode with _ | b
    · exact absurd hop h
    · simp [convert_frame_into_result, hop]
  · intro hop
    constructor
    · intro f2 hcontra
      rw [convert_frame_into_result, hop] at hcontra
      rcases hgb : gb f with rb | e | _ <;> rw [hgb] at hcontra <;>
        simp only [Outcome.bind] at hcontra
      · rcases rb with e | _ <;> simp at hcontra
      · simp at hcontra
      · simp at hcontra
    · intro e hgb
      rw [convert_frame_into_result, hop, hgb]
      simp only [Outcome.bind]

/-- Witness for C7: with a body decoder that yields the structured
server error 7, an Error-opcode frame becomes the server-error failure,
and a Ready-opcode frame is returned unchanged. -/
theorem c7_error_opcode_failure_witness :
    convert_frame_into_result gbErr7 (Frame.mk 0 [] Opcode.error 0 [] none []) =
      Outcome.err (CErr.server 7) ∧
    convert_frame_into_result gbErr7
        (Frame.mk 4 [] (Opcode.nonError 8) 1 [] none []) =
      Outcome.ok (Frame.mk 4 [] (Opcode.nonError 8) 1 [] none []) := by
  refine ⟨?_, ?_⟩
  · exact ((c7_error_opcode_failure gbErr7
      (Frame.mk 0 [] Opcode.error 0 [] none [])).2 rfl).2 7 rfl
  · exact (c7_error_opcode_failure gbErr7
      (Frame.mk 4 [] (Opcode.nonError 8) 1 [] none [])).1 (by decide)

/-- Claim C6 (code bug): `read_string` on a declared length of 1
followed by the byte 0xFF — not valid UTF-8 — panics through
`std::str::from_utf8(..).unwrap()` instead of returning an encoding
error; on valid UTF-8 (here the two-byte sequence 0xC3 0xA9) it
succeeds, showing the panic is precisely the invalid-encoding path. -/
theorem c6_invalid_utf8_panics :
    read_string [0, 1, 255] = Outcome.panicked ∧
    read_string [0, 2, 195, 169] = Outcome.ok ([195, 169], []) := by
  exact ⟨rfl, rfl⟩

/-- Claim C8 (code bug): every primitive reader whose declared length
exceeds the remaining bytes panics through
`cursor.read_exact(..).unwrap()` instead of returning an I/O error:
`read_raw_bytes` asked for 3 bytes with 1 remaining, `read_short` with
1 byte remaining, `read_int` with 3 bytes remaining, and `read_bytes`
with a declared length of 5 and 1 byte remaining. -/
theorem c8_truncated_read_panics :
    read_raw_bytes 3 [1] = Outcome.panicked ∧
    read_short [9] = Outcome.panicked ∧
    read_int [1, 2, 3] = Outcome.panicked ∧
    read_bytes [0, 0, 0, 5, 1] = Outcome.panicked := by
  exact ⟨rfl, rfl, rfl, rfl⟩

/-- Claim C9: `parse_frame` is deterministic — two runs over equal byte
sequences with pointwise-equal compression, UUID-decoding and
body-decoding collaborators produce identical results, frame and
remaining source alike. -/
theorem c9_parse_deterministic (s s' : List Nat)
    (comp comp' : List Nat → Except Unit (List Nat))
    (dtu dtu' : List Nat → Option (List Nat))
    (gb gb' : Frame → Outcome ResponseBody)
    (hs : s = s') (hc : ∀ b, comp b = comp' b)
    (hd : ∀ b, dtu b = dtu' b) (hg : ∀ f, gb f = gb' f) :
    parse_frame comp dtu gb s = parse_frame comp' dtu' gb' s' := by
  subst hs
  rw [show comp = comp' from funext hc, show dtu = dtu' from funext hd,
    show gb = gb' from funext hg]

/-- Witness for C9 at a concrete header and concrete collaborators. -/
theorem c9_parse_deterministic_witness :
    parse_frame comp0 dtu0 gb0 [4, 0, 0, 1, 8, 0, 0, 0, 0] =
      parse_frame comp0 dtu0 gb0 [4, 0, 0, 1, 8, 0, 0, 0, 0] :=
  c9_parse_deterministic [4, 0, 0, 1, 8, 0, 0, 0, 0]
    [4, 0, 0, 1, 8, 0, 0, 0, 0] comp0 comp0 dtu0 dtu0 gb0 gb0 rfl
    (fun _ => rfl) (fun _ => rfl) (fun _ => rfl)

/-- A connection read of `n` bytes succeeds whenever `n` bytes are
available. -/
theorem connRead_of_le (n : Nat) (s : List Nat) (h : n ≤ s.length) :
    connRead n s = (Outcome.ok (s.take n), s.drop n) := by
  unfold connRead
  rw [if_pos h]

/-- A successful step followed by a continuation runs the
continuation. -/
theorem connBind_ok {α β : Type} (m : ConnM α) (f : α → ConnM β)
    (s : List Nat) (a : α) (s1 : List Nat) (h : m s = (Outcome.ok a, s1)) :
    connBind m f s = f a s1 := by
  unfold connBind
  rw [h]

/-- A failing step short-circuits the continuation. -/
theorem connBind_err {α β : Type} (m : ConnM α) (f : α → ConnM β)
    (s : List Nat) (e : CErr) (s1 : List Nat)
    (h : m s = (Outcome.err e, s1)) :
    connBind m f s = (Outcome.err e, s1) := by
  unfold connBind
  rw [h]

/-- Normal form of `parse_frame` on a source holding at least the nine
header bytes: the six connection reads succeed or fail solely according
to whether the declared body length fits in the remaining bytes. -/
theorem parse_frame_cons9 (comp : List Nat → Except Unit (List Nat))
    (dtu : List Nat → Option (List Nat)) (gb : Frame → Outcome ResponseBody)
    (b0 b1 b2 b3 b4 b5 b6 b7 b8 : Nat) (rest : List Nat) :
    parse_frame comp dtu gb
        (b0 :: b1 :: b2 :: b3 :: b4 :: b5 :: b6 :: b7 :: b8 :: rest) =
      if from_bytes [b5, b6, b7, b8] ≤ rest.length then
        (parse_after_header b0 (Flag.get_collection b1)
           (from_u16_bytes [b2, b3]) (Opcode.fromByte b4)
           (rest.take (from_bytes [b5, b6, b7, b8])) comp dtu gb,
         rest.drop (from_bytes [b5, b6, b7, b8]))
      else (Outcome.err CErr.io, []) := by
  have r1 : connRead 1 (b0 :: b1 :: b2 :: b3 :: b4 :: b5 :: b6 :: b7 :: b8 :: rest) =
      (Outcome.ok [b0], b1 :: b2 :: b3 :: b4 :: b5 :: b6 :: b7 :: b8 :: rest) :=
    (connRead_of_le _ _ (by simp only [List.length_cons]; omega)).trans rfl
  have r2 : connRead 1 (b1 :: b2 :: b3 :: b4 :: b5 :: b6 :: b7 :: b8 :: rest) =
      (Outcome.ok [b1], b2 :: b3 :: b4 :: b5 :: b6 :: b7 :: b8 :: rest) :=
    (connRead_of_le _ _ (by simp only [List.length_cons]; omega)).trans rfl
  have r3 : connRead 2 (b2 :: b3 :: b4 :: b5 :: b6 :: b7 :: b8 :: rest) =
      (Outcome.ok [b2, b3], b4 :: b5 :: b6 :: b7 :: b8 :: rest) :=
    (connRead_of_le _ _ (by simp only [List.length_cons]; omega)).trans rfl
  have r4 : connRead 1 (b4 :: b5 :: b6 :: b7 :: b8 :: rest) =
      (Outcome.ok [b4], b5 :: b6 :: b7 :: b8 :: rest) :=
    (connRead_of_le _ _ (by simp only [List.length_cons]; omega)).trans rfl
  have r5 : connRead 4 (b5 :: b6 :: b7 :: b8 :: rest) =
      (Outcome.ok [b5, b6, b7, b8], rest) :=
    (connRead_of_le _ _ (by simp only [List.length_cons]; omega)).trans rfl
  by_cases hb : from_bytes [b5, b6, b7, b8] ≤ rest.length
  · rw [if_pos hb]
    have r6 := connRead_of_le (from_bytes [b5, b6, b7, b8]) rest hb
    simp only [parse_frame, connBind_ok _ _ _ _ _ r1, connBind_ok _ _ _ _ _ r2,
      connBind_ok _ _ _ _ _ r3, connBind_ok _ _ _ _ _ r4,
      connBind_ok _ _ _ _ _ r5, connBind_ok _ _ _ _ _ r6, connLift]
    rfl
  · rw [if_neg hb]
    have r6 : connRead (from_bytes [b5, b6, b7, b8]) rest =
        (Outcome.err CErr.io, []) := by
      unfold connRead
      rw [if_neg hb]
    simp only [parse_frame, connBind_ok _ _ _ _ _ r1, connBind_ok _ _ _ _ _ r2,
      connBind_ok _ _ _ _ _ r3, connBind_ok _ _ _ _ _ r4,
      connBind_ok _ _ _ _ _ r5, connBind_err _ _ _ _ _ r6]

/-- Claim C5: on a source starting with any nine bytes followed by at
least the declared number of body bytes, `parse_frame` decodes byte 0
as the version, byte 1 as the flags bitmask, bytes 2-3 as the
big-endian stream id, byte 4 as the opcode and bytes 5-8 as the
big-endian body length — in exactly that order and width — then
consumes exactly that many body bytes before any body processing, and
touches nothing else on the source. -/
theorem c5_header_layout (comp : List Nat → Except Unit (List Nat))
    (dtu : List Nat → Option (List Nat)) (gb : Frame → Outcome ResponseBody)
    (b0 b1 b2 b3 b4 b5 b6 b7 b8 : Nat) (rest : List Nat)
    (hL : from_bytes [b5, b6, b7, b8] ≤ rest.length) :
    parse_frame comp dtu gb
        (b0 :: b1 :: b2 :: b3 :: b4 :: b5 :: b6 :: b7 :: b8 :: rest) =
      (parse_after_header b0 (Flag.get_collection b1)
         (from_u16_bytes [b2, b3]) (Opcode.fromByte b4)
         (rest.take (from_bytes [b5, b6, b7, b8])) comp dtu gb,
       rest.drop (from_bytes [b5, b6, b7, b8])) := by
  rw [parse_frame_cons9, if_pos hL]

/-- Witness for C5 on the spec's example header: version 4, no flags,
stream 1, opcode 8 (Ready), body length 0. -/
theorem c5_header_layout_witness :
    parse_frame comp0 dtu0 gb0 [4, 0, 0, 1, 8, 0, 0, 0, 0] =
      (Outcome.ok (Frame.mk 4 [] (Opcode.nonError 8) 1 [] none []), []) := by
  have h := c5_header_layout comp0 dtu0 gb0 4 0 0 1 8 0 0 0 0 [] (by decide)
  exact h.trans (by rfl)

/-- Claim C10: writing `L` for the big-endian value of source bytes
5-8, `parse_frame` leaves exactly `s.drop (9 + L)` unread when the
source holds at least `9 + L` bytes and drains what is available
otherwise; hence it consumes at most `9 + L` bytes in every run —
success, returned error or panic alike, since all extended-body
sections are parsed from the in-memory decompressed buffer — and on any
run that returns a frame it consumes exactly `9 + L` bytes. -/
theorem c10_source_consumption (comp : List Nat → Except Unit (List Nat))
    (dtu : List Nat → Option (List Nat)) (gb : Frame → Outcome ResponseBody)
    (s : List Nat) :
    ((parse_frame comp dtu gb s).2 =
      if 9 + from_bytes ((s.drop 5).take 4) ≤ s.length then
        (s.drop 9).drop (from_bytes ((s.drop 5).take 4))
      else []) ∧
    (s.length - (parse_frame comp dtu gb s).2.length ≤
      9 + from_bytes ((s.drop 5).take 4)) ∧
    (∀ f, (parse_frame comp dtu gb s).1 = Outcome.ok f →
      (parse_frame comp dtu gb s).2 =
        (s.drop 9).drop (from_bytes ((s.drop 5).take 4))) := by
  have key : ((parse_frame comp dtu gb s).2 =
      if 9 + from_bytes ((s.drop 5).take 4) ≤ s.length then
        (s.drop 9).drop (from_bytes ((s.drop 5).take 4))
      else []) ∧
      (∀ f, (parse_frame comp dtu gb s).1 = Outcome.ok f →
        9 + from_bytes ((s.drop 5).take 4) ≤ s.length) := by
    rcases s with _ | ⟨b0, _ | ⟨b1, _ | ⟨b2, _ | ⟨b3, _ | ⟨b4, _ | ⟨b5, _ |
      ⟨b6, _ | ⟨b7, _ | ⟨b8, rest⟩⟩⟩⟩⟩⟩⟩⟩⟩
    case cons.cons.cons.cons.cons.cons.cons.cons.cons =>
      have e1 : from_bytes ((List.drop 5
          (b0 :: b1 :: b2 :: b3 :: b4 :: b5 :: b6 :: b7 :: b8 :: rest)).take 4) =
          from_bytes [b5, b6, b7, b8] := rfl
      have e2 : List.length
          (b0 :: b1 :: b2 :: b3 :: b4 :: b5 :: b6 :: b7 :: b8 :: rest) =
          rest.length + 9 := by
        simp only [List.length_cons]
      rw [parse_frame_cons9, e1, e2]
      by_cases hb : from_bytes [b5, b6, b7, b8] ≤ rest.length
      · rw [if_pos hb,
          if_pos (show 9 + from_bytes [b5, b6, b7, b8] ≤ rest.length + 9 by omega)]
        exact ⟨rfl, fun f _ => by omega⟩
      · rw [if_neg hb,
          if_neg (show ¬ (9 + from_bytes [b5, b6, b7, b8] ≤ rest.length + 9) by omega)]
        exact ⟨rfl, fun f hf => Outcome.noConfusion hf⟩
    all_goals refine ⟨?_, fun f hf => Outcome.noConfusion hf⟩
    all_goals split
    all_goals try rfl
    all_goals rename_i hc
    all_goals exact absurd (Nat.le_trans (Nat.le_add_right 9 _) hc) (by simp)
  refine ⟨key.1, ?_, fun f hf => by rw [key.1, if_pos (key.2 f hf)]⟩
  by_cases hc : 9 + from_bytes ((s.drop 5).take 4) ≤ s.length
  · rw [key.1, if_pos hc]
    have h1 : ((s.drop 9).drop (from_bytes ((s.drop 5).take 4))).length =
        s.length - 9 - from_bytes ((s.drop 5).take 4) := by
      simp [List.length_drop]
      omega
    omega
  · rw [key.1, if_neg hc]
    simp only [List.length_nil, Nat.sub_zero]
    omega

/-- Witness for C10 on the spec's example frame: all nine header bytes
plus the zero-length body are consumed, leaving nothing. -/
theorem c10_source_consumption_witness :
    (parse_frame comp0 dtu0 gb0 [4, 0, 0, 1, 8, 0, 0, 0, 0]).2 =
      (([4, 0, 0, 1, 8, 0, 0, 0, 0].drop 9).drop
        (from_bytes (([4, 0, 0, 1, 8, 0, 0, 0, 0].drop 5).take 4))) :=
  (c10_source_consumption comp0 dtu0 gb0 [4, 0, 0, 1, 8, 0, 0, 0, 0]).2.2
    (Frame.mk 4 [] (Opcode.nonError 8) 1 [] none []) rfl

end Cdrs
